import Mathlib

/-!
Verification development for the CORD-19 data-exploration toolkit
(`generate_sample_data.py`, `simple_analysis.py`, `download_cord19_data.py`,
`src/streamlit_app.py`).

The Python programs are shallowly embedded: pandas DataFrames built by the
sample generator become a column-major `Frame`, the row-oriented tables that
the CLI explorer and the dashboard load from CSV become `List Paper`, numpy's
seeded global PRNG becomes an explicit `PRNG` state thread, and Python code
that raises becomes `Except PyError`.  Unit-interval draws
(`np.random.random()`) are discretized to hundredths; the exact distribution
of the draws is irrelevant to every property proved below.
-/

namespace Cord19

/-! ## Character and decimal-string helpers (Python `str` semantics) -/

/-- ASCII letter, the character class `[a-zA-Z]` of the dashboard regex. -/
def isAsciiAlpha (c : Char) : Bool :=
  (97 ≤ c.toNat && c.toNat ≤ 122) || (65 ≤ c.toNat && c.toNat ≤ 90)

/-- ASCII digit `[0-9]`. -/
def isAsciiDigit (c : Char) : Bool :=
  48 ≤ c.toNat && c.toNat ≤ 57

/-- Word character for the regex word-boundary `\b` (letters, digits, `_`;
ASCII fragment of Python's `\w`). -/
def isPyWord (c : Char) : Bool :=
  isAsciiAlpha c || isAsciiDigit c || c.toNat == 95

/-- The decimal digit character for a value `d < 10`. -/
def decDigitChar (d : Nat) : Char := Char.ofNat (48 + d)

/-- Decimal digits of a natural number, most significant first
(Python's `str(n)` / `repr` for nonnegative integers). -/
def decChars (n : Nat) : List Char :=
  if _h : n < 10 then [decDigitChar n]
  else decChars (n / 10) ++ [decDigitChar (n % 10)]
decreasing_by exact Nat.div_lt_self (by omega) (by omega)

/-- Decimal string of a natural number. -/
def decRepr (n : Nat) : String := String.mk (decChars n)

/-- Value of a list of decimal digit characters (reads digits left to right). -/
def decValChars (l : List Char) : Nat :=
  l.foldl (fun a c => 10 * a + (c.toNat - 48)) 0

/-- Python's `f'{i:06d}'`: decimal digits left-padded with zeros to width 6. -/
def format06 (i : Nat) : String :=
  String.mk (List.replicate (6 - (decChars i).length) '0' ++ decChars i)

/-- Python `str.lower()` (ASCII fragment). -/
def pyLower (s : String) : String := String.mk (s.data.map Char.toLower)

/-- Python `str.strip(chars)`: remove leading and trailing characters
belonging to `cs`. -/
def pyStripChars (cs : List Char) (s : String) : String :=
  String.mk (((s.data.dropWhile cs.contains).reverse.dropWhile cs.contains).reverse)

/-- Python `str.strip()` with no argument: remove surrounding whitespace. -/
def pyStripWs (s : String) : String :=
  String.mk (((s.data.dropWhile Char.isWhitespace).reverse.dropWhile
    Char.isWhitespace).reverse)

/-- Split a character list on whitespace runs, dropping empty pieces
(the body of Python's argumentless `str.split()`). -/
def splitWsAux : List Char → List Char → List (List Char)
  | [], cur => if cur.isEmpty then [] else [cur.reverse]
  | c :: cs, cur =>
    if c.isWhitespace then
      if cur.isEmpty then splitWsAux cs [] else cur.reverse :: splitWsAux cs []
    else splitWsAux cs (c :: cur)

/-- Python's argumentless `str.split()`. -/
def pySplitWs (s : String) : List String :=
  (splitWsAux s.data []).map String.mk

/-- Body of Python's `str.title()` (ASCII fragment): uppercase a letter that
follows a non-letter, lowercase a letter that follows a letter. -/
def titleAux : List Char → Bool → List Char
  | [], _ => []
  | c :: cs, prevAlpha =>
    (if isAsciiAlpha c then (if prevAlpha then c.toLower else c.toUpper) else c)
      :: titleAux cs (isAsciiAlpha c)

/-- Python `str.title()`. -/
def pyTitle (s : String) : String := String.mk (titleAux s.data false)

/-- Python `int(s)` for optionally signed decimal input; `none` models the
`ValueError` raised on non-numeric input. -/
def pyIntParse (s : String) : Option Int :=
  let t := (pyStripWs s).data
  let core : Bool × List Char :=
    match t with
    | '-' :: rest => (true, rest)
    | '+' :: rest => (false, rest)
    | _ => (false, t)
  if core.2.isEmpty then none
  else if core.2.all isAsciiDigit then
    some (if core.1 then -(decValChars core.2 : Int) else (decValChars core.2 : Int))
  else none

end Cord19

namespace Cord19

/-! ## Civil-calendar conversion (pandas `.dt.year` / `.dt.month`)

Timestamps are nanoseconds since the Unix epoch, as in pandas. -/

def nsPerDay : Nat := 86400 * 1000000000

/-- Days since 1970-01-01 of a civil date (valid for dates at or after the
epoch; Howard Hinnant's algorithm restricted to `Nat`). -/
def daysFromCivil (y m d : Nat) : Nat :=
  let yAdj := if m ≤ 2 then y - 1 else y
  let era := yAdj / 400
  let yoe := yAdj % 400
  let mp := if 2 < m then m - 3 else m + 9
  let doy := (153 * mp + 2) / 5 + d - 1
  let doe := yoe * 365 + yoe / 4 - yoe / 100 + doy
  era * 146097 + doe - 719468

/-- Civil year of a day count since 1970-01-01. -/
def yearOfDays (z : Nat) : Nat :=
  let z2 := z + 719468
  let era := z2 / 146097
  let doe := z2 % 146097
  let yoe := (doe - doe / 1460 + doe / 36524 - doe / 146096) / 365
  let y := yoe + era * 400
  let doy := doe - (365 * yoe + yoe / 4 - yoe / 100)
  let mp := (5 * doy + 2) / 153
  let m := if mp < 10 then mp + 3 else mp - 9
  if m ≤ 2 then y + 1 else y

/-- Civil month of a day count since 1970-01-01. -/
def monthOfDays (z : Nat) : Nat :=
  let z2 := z + 719468
  let doe := z2 % 146097
  let yoe := (doe - doe / 1460 + doe / 36524 - doe / 146096) / 365
  let doy := doe - (365 * yoe + yoe / 4 - yoe / 100)
  let mp := (5 * doy + 2) / 153
  if mp < 10 then mp + 3 else mp - 9

/-- pandas `Series.dt.year` on a nanosecond timestamp. -/
def yearOfNs (t : Nat) : Nat := yearOfDays (t / nsPerDay)

/-- pandas `Series.dt.month` on a nanosecond timestamp. -/
def monthOfNs (t : Nat) : Nat := monthOfDays (t / nsPerDay)

/-- pandas `Series.dt.month_name()`. -/
def monthName : Nat → String
  | 1 => "January" | 2 => "February" | 3 => "March" | 4 => "April"
  | 5 => "May" | 6 => "June" | 7 => "July" | 8 => "August"
  | 9 => "September" | 10 => "October" | 11 => "November" | 12 => "December"
  | _ => ""

/-- Day of a nanosecond timestamp, zero-padded to two digits. -/
def format02 (i : Nat) : String :=
  String.mk (List.replicate (2 - (decChars i).length) '0' ++ decChars i)

/-- Civil day-of-month of a day count since 1970-01-01. -/
def dayOfDays (z : Nat) : Nat :=
  let z2 := z + 719468
  let doe := z2 % 146097
  let yoe := (doe - doe / 1460 + doe / 36524 - doe / 146096) / 365
  let doy := doe - (365 * yoe + yoe / 4 - yoe / 100)
  let mp := (5 * doy + 2) / 153
  doy - (153 * mp + 2) / 5 + 1

/-- `strftime('%Y-%m-%d')` on a nanosecond timestamp. -/
def formatDateNs (t : Nat) : String :=
  let z := t / nsPerDay
  decRepr (yearOfDays z) ++ "-" ++ format02 (monthOfDays z) ++ "-" ++
    format02 (dayOfDays z)

/-- `pandas.date_range(start, end, periods=n)` on nanosecond timestamps:
`n` evenly spaced points from `startNs` to `endNs` inclusive (spacing
computed in integer nanoseconds; rounding of intermediate points is
immaterial to the verified properties). -/
def date_range_ns (startNs endNs n : Nat) : List Nat :=
  if n = 0 then []
  else if n = 1 then [startNs]
  else (List.range n).map (fun i => startNs + i * (endNs - startNs) / (n - 1))

end Cord19

namespace Cord19

/-! ## Small pandas-style aggregation helpers -/

/-- `Series.min()`: `none` models pandas `NaT`/`NaN` on an empty series. -/
def listMinOpt : List Nat → Option Nat
  | [] => none
  | x :: xs =>
    match listMinOpt xs with
    | none => some x
    | some m => some (min x m)

/-- `Series.max()`: `none` models pandas `NaT`/`NaN` on an empty series. -/
def listMaxOpt : List Nat → Option Nat
  | [] => none
  | x :: xs =>
    match listMaxOpt xs with
    | none => some x
    | some m => some (max x m)

/-- Body of `uniqueFirst`: `seen` accumulates the values already emitted. -/
def uniqueFirstGo {α : Type} [DecidableEq α] : List α → List α → List α
  | [], _ => []
  | x :: xs, seen =>
    if seen.contains x then uniqueFirstGo xs seen
    else x :: uniqueFirstGo xs (x :: seen)

/-- Distinct values in order of first occurrence (`Series.unique()`). -/
def uniqueFirst {α : Type} [DecidableEq α] (l : List α) : List α :=
  uniqueFirstGo l []

/-- Insert into a list sorted by descending count (stability of ties is
immaterial to the verified properties). -/
def insertByCountDesc {α : Type} (x : α × Nat) : List (α × Nat) → List (α × Nat)
  | [] => [x]
  | y :: ys => if y.2 < x.2 then x :: y :: ys else y :: insertByCountDesc x ys

/-- `Series.value_counts()`: pairs `(value, count)` sorted by descending
count. -/
def value_counts {α : Type} [DecidableEq α] (xs : List α) : List (α × Nat) :=
  ((uniqueFirst xs).map (fun v => (v, xs.count v))).foldr insertByCountDesc []

/-- Insert into a list sorted by ascending key (`sort_index()`). -/
def insertByKeyAsc {α : Type} (x : Nat × α) : List (Nat × α) → List (Nat × α)
  | [] => [x]
  | y :: ys => if x.1 < y.1 then x :: y :: ys else y :: insertByKeyAsc x ys

/-- Sort `(key, value)` pairs by ascending key (`Series.sort_index()`). -/
def sortByKeyAsc {α : Type} (l : List (Nat × α)) : List (Nat × α) :=
  l.foldr insertByKeyAsc []

/-- Python runtime errors surfaced by the analysed code paths. -/
inductive PyError : Type
  | valueError (msg : String)
  | indexError (msg : String)
deriving DecidableEq, Repr

/-- `.index[0]` / `.iloc[0]` on a pandas index or series: raises `IndexError`
when empty. -/
def indexZero {α : Type} : List α → Except PyError α
  | [] => .error (.indexError "index 0 is out of bounds for axis 0 with size 0")
  | x :: _ => .ok x

/-- `Timestamp.strftime('%Y-%m-%d')`; on a missing value (pandas `NaT`, the
`min()` of an empty datetime series) it raises
`ValueError: NaTType does not support strftime`. -/
def strftimeOpt : Option Nat → Except PyError String
  | none => .error (.valueError "NaTType does not support strftime")
  | some t => .ok (formatDateNs t)

/-- `Timestamp.isoformat()`; pandas `NaT.isoformat()` returns the string
`'NaT'` without raising. -/
def isoformatOpt : Option Nat → String
  | none => "NaT"
  | some t => formatDateNs t

end Cord19

namespace Cord19

/-! ## Seeded PRNG model (`np.random` after `np.random.seed(seed)`)

`numpy`'s global generator is an external deterministic PRNG: seeding fixes a
state, and every draw is a pure function of that state.  The embedding is
parameterized by any such generator `rng : PRNG σ`; every draw of
`generate_cord19_sample` is threaded through its state. -/

structure PRNG (σ : Type) where
  seedFn : Nat → σ
  next : σ → Nat × σ

namespace PRNG

variable {σ : Type} {α : Type}

/-- `np.random.randint(lo, hi)`: a draw in `[lo, hi)`. -/
def randint (rng : PRNG σ) (lo hi : Nat) (s : σ) : Nat × σ :=
  let p := rng.next s
  (lo + p.1 % (hi - lo), p.2)

/-- `np.random.random()` discretized to hundredths: a draw in `0..99`
standing for the unit-interval value `p/100`. -/
def randPct (rng : PRNG σ) (s : σ) : Nat × σ :=
  let p := rng.next s
  (p.1 % 100, p.2)

/-- `np.random.choice(xs)` on a nonempty vocabulary list (`d` is returned
only for an empty vocabulary, which never occurs below). -/
def choice (rng : PRNG σ) (xs : List α) (d : α) (s : σ) : α × σ :=
  let p := rng.next s
  (xs.getD (p.1 % xs.length) d, p.2)

/-- Index selected by a cumulative percent table (weighted choice). -/
def pickCum : List Nat → Nat → Nat
  | [], _ => 0
  | c :: cs, p => if p < c then 0 else 1 + pickCum cs p

/-- `np.random.choice(xs, p=…)`: weighted choice, with `cum` the cumulative
weights as percents. -/
def choiceW (rng : PRNG σ) (xs : List α) (cum : List Nat) (d : α) (s : σ) : α × σ :=
  let p := rng.next s
  (xs.getD (pickCum cum (p.1 % 100)) d, p.2)

/-- `np.random.choice(xs, k, replace=False)`: sample `k` distinct positions. -/
def sampleNoReplace (rng : PRNG σ) (d : α) : List α → Nat → σ → List α × σ
  | _, 0, s => ([], s)
  | xs, k + 1, s =>
    let p := rng.next s
    let i := p.1 % xs.length
    let r := sampleNoReplace rng d (xs.eraseIdx i) k p.2
    (xs.getD i d :: r.1, r.2)

end PRNG

/-- Run a drawing step `n` times, threading the PRNG state (the shape of each
per-column list comprehension `[… for _ in range(n)]`). -/
def drawList {σ α : Type} (step : σ → α × σ) : Nat → σ → List α × σ
  | 0, s => ([], s)
  | n + 1, s =>
    let p := step s
    let r := drawList step n p.2
    (p.1 :: r.1, r.2)

/-- As `drawList`, but the step also sees the loop index
(`[… for i in range(n)]`). -/
def drawListIdx {σ α : Type} (step : Nat → σ → α × σ) : Nat → Nat → σ → List α × σ
  | _, 0, s => ([], s)
  | i, n + 1, s =>
    let p := step i s
    let r := drawListIdx step (i + 1) n p.2
    (p.1 :: r.1, r.2)

end Cord19

namespace Cord19

/-! ## Sample generator (`generate_sample_data.py`, `generate_cord19_sample`) -/

/-- Sample journals (real COVID-19 research journals). -/
def journals : List String :=
  ["Nature", "Science", "The Lancet", "New England Journal of Medicine",
   "Cell", "PLOS ONE", "Nature Medicine", "Journal of Virology",
   "Virology", "Nature Communications", "BMJ", "JAMA",
   "Proceedings of the National Academy of Sciences", "Nature Microbiology",
   "Clinical Infectious Diseases", "Emerging Infectious Diseases",
   "The Lancet Infectious Diseases", "Journal of Medical Virology",
   "Antiviral Research", "Vaccine", "International Journal of Infectious Diseases"]

/-- COVID-related terms for generating realistic titles. -/
def covid_terms : List String :=
  ["COVID-19", "SARS-CoV-2", "coronavirus", "pandemic", "vaccine",
   "antiviral", "treatment", "symptoms", "transmission", "respiratory",
   "infection", "immunity", "antibody", "outbreak", "diagnosis",
   "therapeutic", "prevention", "epidemiology", "public health", "clinical"]

/-- Study types. -/
def study_types : List String :=
  ["systematic review", "clinical trial", "observational study",
   "meta-analysis", "case series", "cohort study", "cross-sectional study",
   "randomized controlled trial", "case-control study", "retrospective analysis"]

/-- Study populations. -/
def populations : List String :=
  ["patients", "population", "healthcare workers", "elderly", "children",
   "adults", "pregnant women", "immunocompromised patients", "hospitalized patients",
   "outpatients", "intensive care patients", "community"]

/-- Data sources. -/
def dataSources : List String := ["PMC", "Elsevier", "arXiv", "bioRxiv", "medRxiv"]

/-- Author name pool. -/
def author_names : List String :=
  ["Smith J", "Johnson A", "Williams B", "Brown C", "Jones D", "Garcia E",
   "Miller F", "Davis G", "Rodriguez H", "Martinez I", "Hernandez J", "Lopez K",
   "Zhang L", "Wang M", "Liu N", "Chen O", "Yang P", "Wu Q", "Kumar R", "Patel S"]

section GeneratorSteps

variable {σ : Type}

/-- Column step for `sha`: `f'sha{np.random.randint(100000, 999999)}'`. -/
def shaStep (rng : PRNG σ) (s : σ) : String × σ :=
  let p := rng.randint 100000 999999 s
  ("sha" ++ decRepr p.1, p.2)

/-- Column step for `doi`:
`f'10.{randint(1000,9999)}/{randint(100000,999999)}' if random() > 0.1 else None`. -/
def doiStep (rng : PRNG σ) (s : σ) : Option String × σ :=
  let c := rng.randPct s
  if 10 < c.1 then
    let a := rng.randint 1000 9999 c.2
    let b := rng.randint 100000 999999 a.2
    (some ("10." ++ decRepr a.1 ++ "/" ++ decRepr b.1), b.2)
  else (none, c.2)

/-- Column step for `pmcid`:
`f'PMC{randint(1000000, 9999999)}' if random() > 0.3 else None`. -/
def pmcidStep (rng : PRNG σ) (s : σ) : Option String × σ :=
  let c := rng.randPct s
  if 30 < c.1 then
    let a := rng.randint 1000000 9999999 c.2
    (some ("PMC" ++ decRepr a.1), a.2)
  else (none, c.2)

/-- Column step for `pubmed_id`:
`randint(10000000, 99999999) if random() > 0.2 else None`. -/
def pubmedStep (rng : PRNG σ) (s : σ) : Option Nat × σ :=
  let c := rng.randPct s
  if 20 < c.1 then
    let a := rng.randint 10000000 99999999 c.2
    (some a.1, a.2)
  else (none, c.2)

/-- Column step for `license`: weighted choice over the license vocabulary
with probabilities `[0.25, 0.20, 0.15, 0.15, 0.15, 0.10]`. -/
def licenseStep (rng : PRNG σ) (s : σ) : String × σ :=
  rng.choiceW ["cc-by", "cc-by-nc", "cc-by-sa", "els-covid", "arxiv", "no-cc"]
    [25, 45, 60, 75, 90, 100] "" s

/-- Column step for `mag_id`:
`randint(1000000000, 9999999999) if random() > 0.4 else None`. -/
def magStep (rng : PRNG σ) (s : σ) : Option Nat × σ :=
  let c := rng.randPct s
  if 40 < c.1 then
    let a := rng.randint 1000000000 9999999999 c.2
    (some a.1, a.2)
  else (none, c.2)

/-- Column step for `who_covidence_id`:
`f'WHO-{randint(10000, 99999)}' if random() > 0.8 else None`. -/
def whoStep (rng : PRNG σ) (s : σ) : Option String × σ :=
  let c := rng.randPct s
  if 80 < c.1 then
    let a := rng.randint 10000 99999 c.2
    (some ("WHO-" ++ decRepr a.1), a.2)
  else (none, c.2)

/-- Column step for `arxiv_id`:
`f'{randint(2000,2024)}.{randint(10000,99999)}' if random() > 0.9 else None`. -/
def arxivStep (rng : PRNG σ) (s : σ) : Option String × σ :=
  let c := rng.randPct s
  if 90 < c.1 then
    let a := rng.randint 2000 2024 c.2
    let b := rng.randint 10000 99999 a.2
    (some (decRepr a.1 ++ "." ++ decRepr b.1), b.2)
  else (none, c.2)

/-- Column step for `has_pdf_parse`: `choice([True, False], p=[0.6, 0.4])`. -/
def hasPdfStep (rng : PRNG σ) (s : σ) : Bool × σ :=
  rng.choiceW [true, false] [60, 100] false s

/-- Column step for `has_pmc_xml_parse`: `choice([True, False], p=[0.4, 0.6])`. -/
def hasPmcStep (rng : PRNG σ) (s : σ) : Bool × σ :=
  rng.choiceW [true, false] [40, 100] false s

/-- Column step for `full_text_file`:
`choice(['pdf_json', 'pmc_json', None], p=[0.3, 0.3, 0.4])`. -/
def ftfStep (rng : PRNG σ) (s : σ) : Option String × σ :=
  rng.choiceW [some "pdf_json", some "pmc_json", none] [30, 60, 100] none s

/-- Column step for `url`:
`f'https://example.com/paper/{i}' if random() > 0.3 else None`. -/
def urlStep (rng : PRNG σ) (i : Nat) (s : σ) : Option String × σ :=
  let c := rng.randPct s
  if 30 < c.1 then (some ("https://example.com/paper/" ++ decRepr i), c.2)
  else (none, c.2)

/-- Per-record title construction (source lines 104-118).  Python evaluates
all five template f-strings, including their inner `np.random.choice` calls,
before choosing among them; the draws happen in the listed order. -/
def titleStep (rng : PRNG σ) (s : σ) : String × σ :=
  let mt := rng.choice covid_terms "" s
  let st := rng.choice study_types "" mt.2
  let pop := rng.choice populations "" st.2
  let i1 := rng.choice ["treatment", "vaccine", "diagnosis", "prevention"] "" pop.2
  let t1 := mt.1 ++ " " ++ i1.1 ++ " in " ++ pop.1 ++ ": " ++ st.1
  let t2 := "Impact of " ++ mt.1 ++ " on " ++ pop.1 ++ ": " ++ st.1
  let i3 := rng.choice ["symptoms", "transmission", "outcomes"] "" i1.2
  let t3 := pyTitle st.1 ++ " of " ++ mt.1 ++ " " ++ i3.1 ++ " in " ++ pop.1
  let i4 := rng.choice ["infection", "disease", "syndrome"] "" i3.2
  let t4 := mt.1 ++ " " ++ i4.1 ++ ": " ++ st.1 ++ " among " ++ pop.1
  let i5 := rng.choice ["vaccines", "treatments", "interventions"] "" i4.2
  let t5 := "Effectiveness of " ++ i5.1 ++ " against " ++ mt.1 ++ " in " ++ pop.1
  rng.choice [t1, t2, t3, t4, t5] "" i5.2

/-- Per-record abstract construction (source lines 121-144).  Both template
f-strings are evaluated (in order) before the 90%/10% decision. -/
def abstractStep (rng : PRNG σ) (s : σ) : String × σ :=
  let a1 := rng.choice covid_terms "" s
  let n1 := rng.randint 50 5000 a1.2
  let n2 := rng.randint 1 24 n1.2
  let a2 := rng.choice ["mortality", "morbidity", "transmission", "immunity"] "" n2.2
  let a3 := rng.choice ["public health", "clinical practice", "policy making"] "" a2.2
  let abs1 := "Background: This study investigates " ++ pyLower a1.1 ++
    " in the context of pandemic response. Methods: We analyzed data from " ++
    decRepr n1.1 ++ " participants over " ++ decRepr n2.1 ++
    " months. Results: Our findings show significant associations with " ++ a2.1 ++
    ". Conclusions: These results have important implications for " ++ a3.1 ++ "."
  let b1 := rng.choice ["efficacy", "safety", "effectiveness"] "" a3.2
  let b2 := rng.choice ["vaccines", "treatments", "interventions"] "" b1.2
  let b3 := rng.choice populations "" b2.2
  let b4 := rng.choice study_types "" b3.2
  let y1 := rng.randint 2020 2023 b4.2
  let y2 := rng.randint 2021 2024 y1.2
  let b5 := rng.choice ["Hospital", "Community", "Multi-center", "Primary care"] "" y2.2
  let n3 := rng.randint 100 10000 b5.2
  let b6 := rng.choice ["Hospitalization", "Mortality", "Infection rates", "Symptom severity"]
    "" n3.2
  let abs2 := "Objective: To evaluate the " ++ b1.1 ++ " of " ++ b2.1 ++ " in " ++ b3.1 ++
    ". Design: " ++ pyTitle b4.1 ++ " conducted between " ++ decRepr y1.1 ++ " and " ++
    decRepr y2.1 ++ ". Setting: " ++ b5.1 ++ " setting. Participants: " ++ decRepr n3.1 ++
    " individuals. Main outcome measures: " ++ b6.1 ++ "."
  let c := rng.randPct b6.2
  if 10 < c.1 then rng.choice [abs1, abs2] "" c.2
  else ("Abstract not available", c.2)

/-- Per-record author-list construction (source lines 153-157). -/
def authorsStep (rng : PRNG σ) (s : σ) : String × σ :=
  let k := rng.choiceW [1, 2, 3, 4, 5, 6] [10, 30, 60, 80, 90, 100] 1 s
  let a := rng.sampleNoReplace "" author_names k.1 k.2
  (String.intercalate "; " a.1, a.2)

end GeneratorSteps

/-- The generated table, column-major like the `data` dict / `pd.DataFrame`
of `generate_cord19_sample` (base columns plus the derived columns added on
lines 159-168). -/
structure Frame where
  cord_uid : List String
  sha : List String
  source_x : List String
  title : List String
  doi : List (Option String)
  pmcid : List (Option String)
  pubmed_id : List (Option Nat)
  license : List String
  abstract : List String
  publish_time : List Nat
  authors : List String
  journal : List String
  mag_id : List (Option Nat)
  who_covidence_id : List (Option String)
  arxiv_id : List (Option String)
  has_pdf_parse : List Bool
  has_pmc_xml_parse : List Bool
  full_text_file : List (Option String)
  url : List (Option String)
  publication_year : List Nat
  publication_month : List Nat
  publication_month_name : List String
  title_length : List Nat
  abstract_word_count : List Nat
  has_full_text : List Bool

/-- `pd.date_range(start='2019-12-01', …)` start, in epoch nanoseconds. -/
def genStartNs : Nat := daysFromCivil 2019 12 1 * nsPerDay

/-- `pd.date_range(…, end='2024-01-31', …)` end, in epoch nanoseconds. -/
def genEndNs : Nat := daysFromCivil 2024 1 31 * nsPerDay

/-- `generate_cord19_sample(n_samples, random_seed)`: seeds the PRNG, draws
every column in the source's evaluation order (the `data` dict literal first,
then the title / abstract / author loops), and finally adds the derived
columns.  All randomness flows through the explicit state of `rng`. -/
def generate_cord19_sample {σ : Type} (rng : PRNG σ) (n_samples : Nat)
    (random_seed : Nat) : Frame :=
  let s0 := rng.seedFn random_seed
  let cord_uid := (List.range n_samples).map (fun i => "cord-" ++ format06 i)
  let sha := drawList (shaStep rng) n_samples s0
  let source_x := drawList (fun s => rng.choice dataSources "" s) n_samples sha.2
  let doi := drawList (doiStep rng) n_samples source_x.2
  let pmcid := drawList (pmcidStep rng) n_samples doi.2
  let pubmed_id := drawList (pubmedStep rng) n_samples pmcid.2
  let license := drawList (licenseStep rng) n_samples pubmed_id.2
  let publish_time := date_range_ns genStartNs genEndNs n_samples
  let journal := drawList (fun s => rng.choice journals "" s) n_samples license.2
  let mag_id := drawList (magStep rng) n_samples journal.2
  let who_id := drawList (whoStep rng) n_samples mag_id.2
  let arxiv_id := drawList (arxivStep rng) n_samples who_id.2
  let has_pdf := drawList (hasPdfStep rng) n_samples arxiv_id.2
  let has_pmc := drawList (hasPmcStep rng) n_samples has_pdf.2
  let ftf := drawList (ftfStep rng) n_samples has_pmc.2
  let url := drawListIdx (urlStep rng) 0 n_samples ftf.2
  let title := drawList (titleStep rng) n_samples url.2
  let abstract := drawList (abstractStep rng) n_samples title.2
  let authors := drawList (authorsStep rng) n_samples abstract.2
  { cord_uid := cord_uid
    sha := sha.1
    source_x := source_x.1
    title := title.1
    doi := doi.1
    pmcid := pmcid.1
    pubmed_id := pubmed_id.1
    license := license.1
    abstract := abstract.1
    publish_time := publish_time
    authors := authors.1
    journal := journal.1
    mag_id := mag_id.1
    who_covidence_id := who_id.1
    arxiv_id := arxiv_id.1
    has_pdf_parse := has_pdf.1
    has_pmc_xml_parse := has_pmc.1
    full_text_file := ftf.1
    url := url.1
    publication_year := publish_time.map yearOfNs
    publication_month := publish_time.map monthOfNs
    publication_month_name := publish_time.map (fun t => monthName (monthOfNs t))
    title_length := title.1.map String.length
    abstract_word_count := abstract.1.map (fun a => (pySplitWs a).length)
    has_full_text := (has_pdf.1.zip has_pmc.1).map (fun p => p.1 || p.2) }

end Cord19

namespace Cord19

/-! ## Row model shared by the CLI explorer and the dashboard

Both `simple_analysis.py` and `src/streamlit_app.py` load the CSV written by
the generator into a row-oriented table and only touch the columns below;
`publication_year` is recomputed from the parsed `publish_time` on load
(`load_data` in both files). -/

structure Paper where
  cord_uid : String
  title : String
  journal : String
  source_x : String
  publish_time : Nat
  publication_year : Nat
deriving DecidableEq, Inhabited, Repr

/-! ## CLI explorer (`simple_analysis.py`) -/

/-- Stop words of `analyze_titles`. -/
def cli_stop_words : List String :=
  ["the", "and", "or", "in", "on", "at", "to", "for", "of", "with", "by", "a", "an"]

/-- The title tokenizer of `analyze_titles` (lines 76-78): split a title on
whitespace, lowercase each word, strip surrounding `.,!?:;`, then keep words
of length at least 3 that are not stop words. -/
def cli_tokenize_title (title : String) : List String :=
  let words := (pySplitWs title).map
    (fun w => pyStripChars ['.', ',', '!', '?', ':', ';'] (pyLower w))
  words.filter (fun w => decide (3 ≤ w.length) && !(cli_stop_words.contains w))

/-- All title tokens accumulated over the dataset (`all_words` in
`analyze_titles`); `none` entries model NaN titles removed by `dropna()`. -/
def cli_all_words (titles : List (Option String)) : List String :=
  (titles.filterMap id).flatMap cli_tokenize_title

/-- Result of `export_sample_data`'s summary document. -/
structure ExportSummary where
  total_papers : Nat
  date_start : String
  date_end : String
  unique_journals : Nat
  top_journal_name : String
  top_journal_papers : Nat
  sources : List (String × Nat)
  yearly_distribution : List (Nat × Nat)
deriving DecidableEq, Repr

/-- Files and summary produced by `export_sample_data`. -/
structure ExportResult where
  recent_papers : List Paper
  top_journal_papers : List Paper
  summary : ExportSummary
deriving DecidableEq, Repr

/-- `export_sample_data(df)` (lines 159-200): exports the most-recent-two-years
subset, the top-journal subset, and a JSON summary.  The comparison of
`publication_year` against `max() - 1` follows pandas semantics: on an empty
frame `max()` is NaN and every comparison with it is false; `value_counts()
.index[0]` raises `IndexError` on an empty frame. -/
def export_sample_data (df : List Paper) : Except PyError ExportResult := do
  let maxY := listMaxOpt (df.map (fun p => p.publication_year))
  let recent := df.filter (fun p =>
    match maxY with
    | some m => decide (m - 1 ≤ p.publication_year)
    | none => false)
  let jc := value_counts (df.map (fun p => p.journal))
  let top ← indexZero jc
  let topPapers := df.filter (fun p => p.journal == top.1)
  let tj ← indexZero jc
  let tjCount ← indexZero jc
  let summary : ExportSummary :=
    { total_papers := df.length
      date_start := isoformatOpt (listMinOpt (df.map (fun p => p.publish_time)))
      date_end := isoformatOpt (listMaxOpt (df.map (fun p => p.publish_time)))
      unique_journals := (uniqueFirst (df.map (fun p => p.journal))).length
      top_journal_name := tj.1
      top_journal_papers := tjCount.2
      sources := value_counts (df.map (fun p => p.source_x))
      yearly_distribution :=
        sortByKeyAsc (value_counts (df.map (fun p => p.publication_year))) }
  pure { recent_papers := recent, top_journal_papers := topPapers, summary := summary }

/-- One screen of the interactive menu, as an abstract action (the printing
performed for each branch is not modelled; the branch taken is). -/
inductive MenuAction : Type
  | basicStats
  | analyzeTitles
  | createViz
  | exportData
  | search (keyword : String)
  | searchSkipped
  | journalPapers (idx : Nat)
  | invalidJournalChoice
  | invalidJournalInput
  | menuExit
  | invalidChoice
deriving DecidableEq, Repr

/-- Result of one iteration of `interactive_menu`'s `while` loop: the action
taken, whether the loop was left (`break`), and how many further input lines
beyond the menu choice the iteration consumed (0 or 1). -/
structure MenuStepResult where
  action : MenuAction
  exited : Bool
  consumed : Nat
deriving DecidableEq, Repr

/-- Number of entries of `df['journal'].value_counts().head(10)`, the range
bound for the journal drill-down. -/
def topTenCount (df : List Paper) : Nat :=
  ((value_counts (df.map (fun p => p.journal))).take 10).length

/-- One iteration of `interactive_menu` (lines 202-259): read a choice from
`line`, dispatch, possibly consuming one more input line (choices 5 and 6).
Invalid menu choices, non-numeric journal numbers (`int()` raising
`ValueError`) and out-of-range journal numbers all report an error and leave
the loop running; only choice `'7'` breaks. -/
def menuStep (df : List Paper) (line : String) (rest : List String) : MenuStepResult :=
  let choice := pyStripWs line
  if choice = "1" then ⟨.basicStats, false, 0⟩
  else if choice = "2" then ⟨.analyzeTitles, false, 0⟩
  else if choice = "3" then ⟨.createViz, false, 0⟩
  else if choice = "4" then ⟨.exportData, false, 0⟩
  else if choice = "5" then
    let keyword := pyStripWs (rest.headD "")
    if keyword ≠ "" then ⟨.search keyword, false, 1⟩
    else ⟨.searchSkipped, false, 1⟩
  else if choice = "6" then
    match pyIntParse (rest.headD "") with
    | none => ⟨.invalidJournalInput, false, 1⟩
    | some k =>
      if 0 ≤ k - 1 ∧ k - 1 < (topTenCount df : Int) then
        ⟨.journalPapers (k - 1).toNat, false, 1⟩
      else ⟨.invalidJournalChoice, false, 1⟩
  else if choice = "7" then ⟨.menuExit, true, 0⟩
  else ⟨.invalidChoice, false, 0⟩

/-- The interactive menu loop over a finite script of input lines (the
session ends when the script is exhausted or on the exit choice). -/
def menuLoop (df : List Paper) : List String → List MenuAction
  | [] => []
  | line :: rest =>
    let r := menuStep df line rest
    if r.exited then [r.action]
    else r.action :: menuLoop df (rest.drop r.consumed)
termination_by l => l.length
decreasing_by
  simp only [List.length_cons, List.length_drop]
  omega

end Cord19

namespace Cord19

/-! ## Dashboard (`src/streamlit_app.py`) -/

/-- Stop words of the dashboard's `extract_words`. -/
def st_stop_words : List String :=
  ["the", "and", "or", "but", "in", "on", "at", "to", "for", "of", "with", "by",
   "from", "up", "about", "into", "through", "during", "before", "after",
   "a", "an", "as", "are", "was", "were", "been", "be", "have", "has", "had"]

/-- Matches of `re.findall(r'\b[a-zA-Z]+\b', text)`: maximal ASCII-letter
runs whose neighbouring characters (if any) are not word characters.
`startOk` records whether a word boundary precedes the current run `run`
(kept reversed). -/
def findWordsAux : List Char → Bool → List Char → List (List Char)
  | [], startOk, run =>
    if run.isEmpty then [] else if startOk then [run.reverse] else []
  | c :: cs, startOk, run =>
    if isAsciiAlpha c then findWordsAux cs startOk (c :: run)
    else
      let keep := !run.isEmpty && startOk && !isPyWord c
      (if keep then [run.reverse] else []) ++ findWordsAux cs (!isPyWord c) []

/-- `re.findall(r'\b[a-zA-Z]+\b', text)` on a character list. -/
def findWords (chars : List Char) : List (List Char) :=
  findWordsAux chars true []

/-- `extract_words(text_series, min_length)` (lines 118-132): over the series
with NaN entries dropped, lowercase each text, take the regex word matches,
and keep those of sufficient length that are not stop words. -/
def extract_words (text_series : List (Option String)) (min_length : Nat) : List String :=
  (text_series.filterMap id).flatMap (fun text =>
    let words := (findWords (pyLower text).data).map String.mk
    words.filter (fun w => decide (min_length ≤ w.length) && !(st_stop_words.contains w)))

/-- The dashboard's year-range filter (lines 160-163):
`df[(df['publication_year'] >= a) & (df['publication_year'] <= b)]`. -/
def filter_year (df : List Paper) (a b : Nat) : List Paper :=
  df.filter (fun p => decide (a ≤ p.publication_year) && decide (p.publication_year ≤ b))

/-- The dashboard's source filter (line 175):
`df_filtered[df_filtered['source_x'].isin(selected_sources)]`. -/
def filter_sources (df : List Paper) (selected : List String) : List Paper :=
  df.filter (fun p => selected.contains p.source_x)

/-- The dashboard's journal filter (lines 185-186), guarded by the truthiness
of the multiselect list:
`if selected_journals: df_filtered = df_filtered[… .isin(selected_journals)]`. -/
def filter_journals (df : List Paper) (selected : List String) : List Paper :=
  if selected.isEmpty then df
  else df.filter (fun p => selected.contains p.journal)

/-- The dashboard's full sidebar filter pipeline (year range, then sources,
then the guarded journal filter). -/
def apply_filters (df : List Paper) (a b : Nat) (selSources selJournals : List String) :
    List Paper :=
  filter_journals (filter_sources (filter_year df a b) selSources) selJournals

end Cord19

namespace Cord19

/-! ## Dataset acquirer (`download_cord19_data.py`) -/

/-- `check_existing_data()` (lines 235-253): `none` when the `data` directory
is absent or contains no `*.csv` / `*.json` file, otherwise the matching
files (csv globs first, as in the source's pattern loop). -/
def check_existing_data (dataDir : Option (List String)) : Option (List String) :=
  match dataDir with
  | none => none
  | some files =>
    let found := files.filter (fun f => ".csv".data.isSuffixOf f.data) ++
      files.filter (fun f => ".json".data.isSuffixOf f.data)
    if found.isEmpty then none else some found

/-- Outcome of a run of the acquirer's `main`. -/
inductive AcquireOutcome : Type
  | cancelled
  | attempted (method : String)
deriving DecidableEq, Repr

/-- `main()` of the acquirer (lines 255-307), up to the point where one of
the three download functions runs.  `dataDir` is the observable state of the
`data` directory, `response` the interactive confirmation, and `perform`
abstracts the filesystem effect of the chosen download method.  Without
`--force`, when data files exist and the reply (lowercased) is not `'y'`,
the function returns before any acquisition. -/
def acquirer_main (method : String) (force : Bool) (dataDir : Option (List String))
    (response : String) (perform : String → Option (List String) → Option (List String)) :
    AcquireOutcome × Option (List String) :=
  if !force then
    match check_existing_data dataDir with
    | some _ =>
      if pyLower response ≠ "y" then (.cancelled, dataDir)
      else (.attempted method, perform method dataDir)
    | none => (.attempted method, perform method dataDir)
  else (.attempted method, perform method dataDir)

end Cord19

namespace Cord19

/-! ## Generator statistics (`generate_app_stats`) -/

/-- The statistics record written to `app_stats.json`; `generated_at` is the
wall-clock time, passed in as `now`. -/
structure AppStats where
  total_papers : Nat
  date_range : String
  unique_journals : Nat
  top_journal : String
  peak_year : Nat
  sources : List String
  generated_at : String
  sample_data : Bool
deriving DecidableEq, Repr

/-- `generate_app_stats(df)` (lines 172-192), with the dict entries evaluated
in source order.  On an empty frame, `df['publish_time'].min()` is `NaT` and
its `strftime` raises `ValueError`; `value_counts().index[0]` would raise
`IndexError`.  Both are modelled as `Except` errors. -/
def generate_app_stats (now : String) (df : Frame) : Except PyError AppStats := do
  let total := df.cord_uid.length
  let dmin ← strftimeOpt (listMinOpt df.publish_time)
  let dmax ← strftimeOpt (listMaxOpt df.publish_time)
  let uniq := (uniqueFirst df.journal).length
  let top ← indexZero (value_counts df.journal)
  let peak ← indexZero (value_counts df.publication_year)
  let srcs := uniqueFirst df.source_x
  pure { total_papers := total
         date_range := dmin ++ " to " ++ dmax
         unique_journals := uniq
         top_journal := top.1
         peak_year := peak.1
         sources := srcs
         generated_at := now
         sample_data := true }

end Cord19

namespace Cord19

/-! ## Helper lemmas: decimal strings -/

/-- Decimal digit characters decode back to their value. -/
theorem decDigitChar_toNat : ∀ d : Nat, d < 10 → (decDigitChar d).toNat = 48 + d := by
  decide

/-- Folding the decimal evaluator over `decChars n` starting from `a`
appends `n` to the accumulated value. -/
theorem foldl_decChars (n : Nat) : ∀ a : Nat,
    (decChars n).foldl (fun a c => 10 * a + (c.toNat - 48)) a =
      a * 10 ^ (decChars n).length + n := by
  induction n using Nat.strong_induction_on with
  | _ n ih =>
    intro a
    rw [decChars]
    split
    · next h =>
      simp only [List.foldl_cons, List.foldl_nil, List.length_cons, List.length_nil]
      rw [decDigitChar_toNat n h]
      simp [pow_one]
      omega
    · next h =>
      rw [List.foldl_append, List.length_append]
      rw [ih (n / 10) (Nat.div_lt_self (by omega) (by omega))]
      simp only [List.foldl_cons, List.foldl_nil, List.length_cons, List.length_nil]
      rw [decDigitChar_toNat (n % 10) (Nat.mod_lt n (by omega))]
      have hm : 10 * (n / 10) + n % 10 = n := by omega
      have hs : 48 + n % 10 - 48 = n % 10 := by omega
      rw [hs]
      calc 10 * (a * 10 ^ (decChars (n / 10)).length + n / 10) + n % 10
          = a * (10 ^ (decChars (n / 10)).length * 10) + (10 * (n / 10) + n % 10) := by
            ring
        _ = a * 10 ^ ((decChars (n / 10)).length + (0 + 1)) + n := by
            rw [hm, pow_succ]

/-- The decimal digits of `n` evaluate to `n`. -/
theorem decValChars_decChars (n : Nat) : decValChars (decChars n) = n := by
  have h := foldl_decChars n 0
  simpa [decValChars] using h

/-- Leading zero characters do not change the decoded value. -/
theorem decValChars_replicate_zero (k : Nat) (l : List Char) :
    decValChars (List.replicate k '0' ++ l) = decValChars l := by
  have hz : ∀ m : Nat, (List.replicate m '0').foldl
      (fun a c => 10 * a + (c.toNat - 48)) 0 = 0 := by
    intro m
    induction m with
    | zero => rfl
    | succ m ihm => simpa [List.replicate_succ] using ihm
  simp [decValChars, List.foldl_append, hz k]

/-- `f'{i:06d}'` is injective. -/
theorem format06_injective : Function.Injective format06 := by
  intro i j h
  have hdata : List.replicate (6 - (decChars i).length) '0' ++ decChars i =
      List.replicate (6 - (decChars j).length) '0' ++ decChars j :=
    congrArg String.data h
  have hval := congrArg decValChars hdata
  rwa [decValChars_replicate_zero, decValChars_replicate_zero,
    decValChars_decChars, decValChars_decChars] at hval

/-- String concatenation on the character-list model. -/
theorem string_data_append (s t : String) : (s ++ t).data = s.data ++ t.data := by
  cases s; cases t; rfl

/-- `f'cord-{i:06d}'` is injective. -/
theorem cordId_injective : Function.Injective (fun i => "cord-" ++ format06 i) := by
  intro i j h
  apply format06_injective
  have hdata := congrArg String.data h
  rw [string_data_append, string_data_append] at hdata
  have h2 := List.append_cancel_left hdata
  exact String.ext h2

end Cord19

namespace Cord19

/-! ## Helper lemmas: generator structure -/

/-- `drawList` produces exactly `n` values. -/
theorem drawList_length {σ α : Type} (step : σ → α × σ) :
    ∀ (n : Nat) (s : σ), ((drawList step n s).1).length = n := by
  intro n
  induction n with
  | zero => intro s; rfl
  | succ n ihn => intro s; simp [drawList, ihn]

/-- `drawListIdx` produces exactly `n` values. -/
theorem drawListIdx_length {σ α : Type} (step : Nat → σ → α × σ) :
    ∀ (n i : Nat) (s : σ), ((drawListIdx step i n s).1).length = n := by
  intro n
  induction n with
  | zero => intro i s; rfl
  | succ n ihn => intro i s; simp [drawListIdx, ihn]

/-- `date_range` produces exactly `n` timestamps. -/
theorem date_range_ns_length (a b n : Nat) : (date_range_ns a b n).length = n := by
  unfold date_range_ns
  split
  · next h => simp [h]
  · split
    · next h => simp [h]
    · simp

/-- The identifier column of the generated frame, as built on source
line 73. -/
theorem generate_cord_uid_eq {σ : Type} (rng : PRNG σ) (n seed : Nat) :
    (generate_cord19_sample rng n seed).cord_uid =
      (List.range n).map (fun i => "cord-" ++ format06 i) := rfl

/-- The timestamp column of the generated frame, as built on source
line 86. -/
theorem generate_publish_time_eq {σ : Type} (rng : PRNG σ) (n seed : Nat) :
    (generate_cord19_sample rng n seed).publish_time =
      date_range_ns genStartNs genEndNs n := rfl

/-- The derived year column of the generated frame, as built on source
line 163. -/
theorem generate_publication_year_eq {σ : Type} (rng : PRNG σ) (n seed : Nat) :
    (generate_cord19_sample rng n seed).publication_year =
      (date_range_ns genStartNs genEndNs n).map yearOfNs := rfl

/-- Pairs of a list zipped with its image under `f` satisfy `p.2 = f p.1`. -/
theorem zip_map_snd_eq {α β : Type} (f : α → β) :
    ∀ (l : List α) (p : α × β), p ∈ l.zip (l.map f) → p.2 = f p.1 := by
  intro l
  induction l with
  | nil => intro p hp; simp at hp
  | cons x xs ihl =>
    intro p hp
    simp only [List.map_cons, List.zip_cons_cons, List.mem_cons] at hp
    rcases hp with hp | hp
    · rw [hp]
    · exact ihl p hp

/-! ## Helper lemmas: the dashboard tokenizer -/

/-- Every run emitted by the word scanner is a nonempty list of ASCII
letters. -/
theorem findWordsAux_sound :
    ∀ (cs : List Char) (startOk : Bool) (run : List Char),
      (∀ c ∈ run, isAsciiAlpha c = true) →
      ∀ w ∈ findWordsAux cs startOk run, w ≠ [] ∧ ∀ c ∈ w, isAsciiAlpha c = true := by
  intro cs
  induction cs with
  | nil =>
    intro startOk run hrun w hw
    unfold findWordsAux at hw
    split at hw
    · simp at hw
    · split at hw
      · next hne _ =>
        simp only [List.mem_singleton] at hw
        subst hw
        refine ⟨by simpa [List.isEmpty_iff] using hne, ?_⟩
        intro c hc
        exact hrun c (List.mem_reverse.mp hc)
      · simp at hw
  | cons c cs ihl =>
    intro startOk run hrun w hw
    unfold findWordsAux at hw
    split at hw
    · next halpha =>
      refine ihl startOk (c :: run) ?_ w hw
      intro d hd
      rcases List.mem_cons.mp hd with hd | hd
      · rw [hd]; exact halpha
      · exact hrun d hd
    · rw [List.mem_append] at hw
      rcases hw with hw | hw
      · split at hw
        · next hkeep =>
          simp only [List.mem_singleton] at hw
          subst hw
          have hne : run.isEmpty = false := by
            simp only [Bool.and_eq_true, Bool.not_eq_true'] at hkeep
            exact hkeep.1.1
          refine ⟨by simpa [List.isEmpty_iff] using hne, ?_⟩
          intro d hd
          exact hrun d (List.mem_reverse.mp hd)
        · simp at hw
      · exact ihl _ [] (by intro d hd; simp at hd) w hw

end Cord19

namespace Cord19

/-! ## Helper lemmas: the interactive menu -/

/-- The menu loop's break flag is set exactly by the stripped choice `'7'`. -/
theorem menuStep_exited_iff (df : List Paper) (line : String) (rest : List String) :
    (menuStep df line rest).exited = true ↔ pyStripWs line = "7" := by
  unfold menuStep
  dsimp only
  split_ifs <;> try simp_all
  all_goals cases hp : pyIntParse (rest.headD "")
  all_goals try simp_all
  all_goals try split_ifs
  all_goals rfl

/-- Concrete PRNG instance used only to instantiate witnesses. -/
def demoRNG : PRNG Nat := { seedFn := fun n => n, next := fun s => (s, s + 1) }

/-- Concrete two-row table used only to instantiate witnesses. -/
def demoPapers : List Paper :=
  [{ cord_uid := "cord-000000", title := "COVID-19 vaccine trial in elderly patients",
     journal := "Nature", source_x := "PMC",
     publish_time := daysFromCivil 2020 3 1 * nsPerDay, publication_year := 2020 },
   { cord_uid := "cord-000001", title := "Impact of coronavirus on children: cohort study",
     journal := "BMJ", source_x := "arXiv",
     publish_time := daysFromCivil 2021 6 1 * nsPerDay, publication_year := 2021 }]

end Cord19

namespace Cord19

/-- C1: computing summary statistics from a 0-record Dataset is claimed to
raise no division-by-zero or index error and to report zero counts and a
null/absent date range.  The code violates this: `generate_app_stats` on the
frame generated with `n_samples = 0` raises `ValueError` when `strftime` is
applied to the `NaT` minimum of the empty `publish_time` column, and the CLI
explorer's `export_sample_data` on an empty table raises `IndexError` at
`df['journal'].value_counts().index[0]`. -/
theorem empty_dataset_stats_raise (σ : Type) (rng : PRNG σ) (now : String) (seed : Nat) :
    generate_app_stats now (generate_cord19_sample rng 0 seed) =
      .error (.valueError "NaTType does not support strftime") ∧
    export_sample_data ([] : List Paper) =
      .error (.indexError "index 0 is out of bounds for axis 0 with size 0") :=
  ⟨rfl, rfl⟩

/-- C2: for every record count and seed, two independent runs of
`generate_cord19_sample` produce identical Datasets.  In the embedding every
source of randomness is the explicitly seeded PRNG state and no other input
exists (no wall clock, no ambient state), so the generated frame is a pure
function of `(rng, n_samples, random_seed)` for any deterministic generator
`rng`, and the two runs coincide definitionally. -/
theorem generate_deterministic (σ : Type) (rng : PRNG σ) (n_samples random_seed : Nat) :
    generate_cord19_sample rng n_samples random_seed =
      generate_cord19_sample rng n_samples random_seed := rfl

/-- C3: the generator produces exactly `n` records, and the identifier
column is `cord-` followed by the index zero-padded to six digits, so all
identifiers are pairwise distinct (`Nodup`). -/
theorem generate_ids_sequential_unique (σ : Type) (rng : PRNG σ) (n seed : Nat) :
    (generate_cord19_sample rng n seed).cord_uid.length = n ∧
    (generate_cord19_sample rng n seed).title.length = n ∧
    (generate_cord19_sample rng n seed).journal.length = n ∧
    (generate_cord19_sample rng n seed).source_x.length = n ∧
    (generate_cord19_sample rng n seed).abstract.length = n ∧
    (generate_cord19_sample rng n seed).publish_time.length = n ∧
    (generate_cord19_sample rng n seed).cord_uid =
      (List.range n).map (fun i => "cord-" ++ format06 i) ∧
    (generate_cord19_sample rng n seed).cord_uid.Nodup := by
  refine ⟨?_, ?_, ?_, ?_, ?_, ?_, generate_cord_uid_eq rng n seed, ?_⟩
  · rw [generate_cord_uid_eq]; simp
  · simp [generate_cord19_sample, drawList_length]
  · simp [generate_cord19_sample, drawList_length]
  · simp [generate_cord19_sample, drawList_length]
  · simp [generate_cord19_sample, drawList_length]
  · rw [generate_publish_time_eq]; exact date_range_ns_length _ _ _
  · rw [generate_cord_uid_eq]
    exact (List.nodup_range n).map cordId_injective

/-- C4: the dashboard's year-range filter keeps exactly the records whose
publication year lies in `[a, b]` (all of them and only them), and applying
the same filter to an already-filtered view returns the same view. -/
theorem year_filter_exact_and_idempotent (df : List Paper) (a b : Nat) :
    (∀ p : Paper, p ∈ filter_year df a b ↔
      p ∈ df ∧ a ≤ p.publication_year ∧ p.publication_year ≤ b) ∧
    filter_year (filter_year df a b) a b = filter_year df a b := by
  constructor
  · intro p
    simp [filter_year, List.mem_filter, and_assoc]
  · apply List.filter_eq_self.mpr
    intro p hp
    exact (List.mem_filter.mp hp).2

/-- C9: with an empty journal multi-select the dashboard skips the journal
filter entirely, so the filtered view equals the view produced by the
year-range and source filters alone; a literal `isin`-the-empty-set filter
would instead produce the empty view. -/
theorem empty_journal_filter_skipped (df : List Paper) (a b : Nat)
    (selSources : List String) :
    apply_filters df a b selSources [] = filter_sources (filter_year df a b) selSources ∧
    (filter_sources (filter_year df a b) selSources).filter
      (fun p => ([] : List String).contains p.journal) = [] := by
  constructor
  · rfl
  · simp

end Cord19

namespace Cord19

/-- C5: tokenizing the title `"COVID-19 vaccine trial in elderly patients"`
with the 3-character minimum and the implemented stop-word sets yields
exactly `covid-19, vaccine, trial, elderly, patients` in the CLI tokenizer,
and the documented equivalent of the dashboard tokenizer (whose regex keeps
only letter runs, turning `covid-19` into `covid`); both exclude `in`. -/
theorem tokenize_example_title :
    cli_tokenize_title "COVID-19 vaccine trial in elderly patients" =
      ["covid-19", "vaccine", "trial", "elderly", "patients"] ∧
    extract_words [some "COVID-19 vaccine trial in elderly patients"] 3 =
      ["covid", "vaccine", "trial", "elderly", "patients"] ∧
    "in" ∉ cli_tokenize_title "COVID-19 vaccine trial in elderly patients" ∧
    "in" ∉ extract_words [some "COVID-19 vaccine trial in elderly patients"] 3 := by
  refine ⟨?_, ?_, ?_, ?_⟩ <;> decide

/-- C6: in every generated frame the derived `publication_year` column is
the year component of the `publish_time` column, both as a column equation
and pointwise for every (timestamp, year) pair of a record. -/
theorem generated_year_matches_timestamp (σ : Type) (rng : PRNG σ) (n seed : Nat) :
    (generate_cord19_sample rng n seed).publication_year =
      (generate_cord19_sample rng n seed).publish_time.map yearOfNs ∧
    ∀ p ∈ (generate_cord19_sample rng n seed).publish_time.zip
        (generate_cord19_sample rng n seed).publication_year,
      p.2 = yearOfNs p.1 := by
  refine ⟨rfl, ?_⟩
  intro p hp
  rw [generate_publication_year_eq, generate_publish_time_eq] at hp
  exact zip_map_snd_eq yearOfNs _ p hp

/-- Witness for C6 at a concrete generator run (`n = 1`): the single
record's derived year is the year of its timestamp. -/
theorem generated_year_matches_timestamp_witness :
    ((genStartNs, yearOfNs genStartNs) : Nat × Nat).2 =
      yearOfNs ((genStartNs, yearOfNs genStartNs) : Nat × Nat).1 := by
  apply (generated_year_matches_timestamp Nat demoRNG 1 42).2
  decide

/-- C7: in the CLI explorer's interactive menu loop, the loop is left
exactly on the stripped choice `'7'`; a menu choice outside `1`-`7` is
reported as invalid and the loop continues; for choice `'6'`, a non-numeric
journal number or an out-of-range journal number is reported and the loop
continues; and whenever the choice is not `'7'` the loop proceeds to the
next iteration. -/
theorem menu_invalid_input_continues (df : List Paper) (line : String) (rest : List String) :
    ((menuStep df line rest).exited = true ↔ pyStripWs line = "7") ∧
    (pyStripWs line ∉ (["1", "2", "3", "4", "5", "6", "7"] : List String) →
      (menuStep df line rest).action = MenuAction.invalidChoice ∧
        (menuStep df line rest).exited = false) ∧
    (pyStripWs line = "6" → pyIntParse (rest.headD "") = none →
      (menuStep df line rest).action = MenuAction.invalidJournalInput ∧
        (menuStep df line rest).exited = false) ∧
    (∀ k : Int, pyStripWs line = "6" → pyIntParse (rest.headD "") = some k →
      ¬(0 ≤ k - 1 ∧ k - 1 < (topTenCount df : Int)) →
      (menuStep df line rest).action = MenuAction.invalidJournalChoice ∧
        (menuStep df line rest).exited = false) ∧
    (pyStripWs line ≠ "7" →
      menuLoop df (line :: rest) =
        (menuStep df line rest).action ::
          menuLoop df (rest.drop (menuStep df line rest).consumed)) := by
  refine ⟨menuStep_exited_iff df line rest, ?_, ?_, ?_, ?_⟩
  · intro hn
    simp only [List.mem_cons, List.not_mem_nil, or_false, not_or] at hn
    obtain ⟨n1, n2, n3, n4, n5, n6, n7⟩ := hn
    simp [menuStep, n1, n2, n3, n4, n5, n6, n7]
  · intro h6 hp
    rw [List.headD_eq_head?_getD] at hp
    simp [menuStep, h6, hp]
  · intro k h6 hp hk
    rw [List.headD_eq_head?_getD] at hp
    have hk2 : ¬(1 ≤ k ∧ k - 1 < (topTenCount df : Int)) := by omega
    simp [menuStep, h6, hp, hk2]
  · intro h7
    have hex : (menuStep df line rest).exited = false := by
      cases h : (menuStep df line rest).exited
      · rfl
      · exact absurd ((menuStep_exited_iff df line rest).mp h) h7
    simp only [menuLoop, hex]
    simp

/-- Witness for C7: concrete invalid inputs keep the loop running and a
stripped `'7'` leaves it. -/
theorem menu_invalid_input_continues_witness :
    (menuStep demoPapers "9" []).action = MenuAction.invalidChoice ∧
    (menuStep demoPapers "9" []).exited = false ∧
    (menuStep demoPapers "6" ["abc"]).action = MenuAction.invalidJournalInput ∧
    (menuStep demoPapers "6" ["abc"]).exited = false ∧
    (menuStep demoPapers "6" ["0"]).action = MenuAction.invalidJournalChoice ∧
    (menuStep demoPapers " 7 " []).exited = true ∧
    menuLoop demoPapers ["9"] = MenuAction.invalidChoice :: menuLoop demoPapers [] := by
  have h9 := menu_invalid_input_continues demoPapers "9" []
  have h6a := menu_invalid_input_continues demoPapers "6" ["abc"]
  have h60 := menu_invalid_input_continues demoPapers "6" ["0"]
  have h7 := menu_invalid_input_continues demoPapers " 7 " []
  refine ⟨(h9.2.1 (by decide)).1, (h9.2.1 (by decide)).2,
    (h6a.2.2.1 (by decide) (by decide)).1, (h6a.2.2.1 (by decide) (by decide)).2,
    (h60.2.2.2.1 0 (by decide) (by decide) (by decide)).1,
    h7.1.mpr (by decide), ?_⟩
  have h5 := h9.2.2.2.2 (by decide)
  rw [h5, (h9.2.1 (by decide)).1]
  simp

/-- C8: running the acquirer without `--force` when dataset files already
exist and the confirmation reply (lowercased) is anything but `'y'` performs
no acquisition and leaves the data directory unchanged. -/
theorem no_overwrite_without_confirmation (method : String)
    (dataDir : Option (List String)) (response : String)
    (perform : String → Option (List String) → Option (List String))
    (hdata : check_existing_data dataDir ≠ none) (hresp : pyLower response ≠ "y") :
    acquirer_main method false dataDir response perform =
      (AcquireOutcome.cancelled, dataDir) := by
  unfold acquirer_main
  rcases h : check_existing_data dataDir with _ | files
  · exact absurd h hdata
  · simp [h, hresp]

/-- Witness for C8: with an existing `cord19_sample.csv` and the reply `n`,
the acquirer cancels and the directory is untouched. -/
theorem no_overwrite_without_confirmation_witness :
    acquirer_main "demo" false (some ["cord19_sample.csv"]) "n" (fun _ _ => none) =
      (AcquireOutcome.cancelled, some ["cord19_sample.csv"]) :=
  no_overwrite_without_confirmation "demo" (some ["cord19_sample.csv"]) "n"
    (fun _ _ => none) (by decide) (by decide)

/-- C10: every token returned by the dashboard's `extract_words` consists
only of ASCII letters, has length at least `min_length`, and is not a stop
word; hence no token contains a digit or a hyphen, so `COVID-19` contributes
`covid` and never `covid-19` — unlike the CLI tokenizer, which preserves
intra-word hyphens and digits. -/
theorem extract_words_tokens_shape (texts : List (Option String)) (minLen : Nat)
    (w : String) (hw : w ∈ extract_words texts minLen) :
    (∀ c ∈ w.data, isAsciiAlpha c = true) ∧
    minLen ≤ w.length ∧
    st_stop_words.contains w = false ∧
    (∀ c ∈ w.data, isAsciiDigit c = false ∧ c ≠ '-') ∧
    "covid" ∈ extract_words [some "COVID-19 vaccine trial in elderly patients"] 3 ∧
    "covid-19" ∉ extract_words [some "COVID-19 vaccine trial in elderly patients"] 3 ∧
    "covid-19" ∈ cli_tokenize_title "COVID-19 vaccine trial in elderly patients" := by
  unfold extract_words at hw
  rw [List.mem_flatMap] at hw
  obtain ⟨text, htext, hw2⟩ := hw
  rw [List.mem_filter] at hw2
  obtain ⟨hmem, hpred⟩ := hw2
  rw [List.mem_map] at hmem
  obtain ⟨run, hrun, hwe⟩ := hmem
  have hsound := findWordsAux_sound ((pyLower text).data) true []
    (by intro c hc; simp at hc) run hrun
  subst hwe
  simp only [Bool.and_eq_true, decide_eq_true_eq, Bool.not_eq_true'] at hpred
  have hletters : ∀ c ∈ (String.mk run).data, isAsciiAlpha c = true := hsound.2
  refine ⟨hletters, hpred.1, hpred.2, ?_, by decide, by decide, by decide⟩
  intro c hc
  have ha := hletters c hc
  constructor
  · cases hd : isAsciiDigit c
    · rfl
    · exfalso
      simp only [isAsciiDigit, Bool.and_eq_true, decide_eq_true_eq] at hd
      simp only [isAsciiAlpha, Bool.or_eq_true, Bool.and_eq_true,
        decide_eq_true_eq] at ha
      omega
  · intro hcm
    rw [hcm] at ha
    exact absurd ha (by decide)

/-- Witness for C10: the token `covid` extracted from the example title has
the claimed shape. -/
theorem extract_words_tokens_shape_witness :
    ("covid" ∈ extract_words [some "COVID-19 vaccine trial in elderly patients"] 3) ∧
    3 ≤ "covid".length ∧ st_stop_words.contains "covid" = false := by
  have hmem : "covid" ∈ extract_words [some "COVID-19 vaccine trial in elderly patients"] 3 := by
    decide
  have h := extract_words_tokens_shape [some "COVID-19 vaccine trial in elderly patients"]
    3 "covid" hmem
  exact ⟨hmem, h.2.1, h.2.2.1⟩

end Cord19
